import Mathlib

/-!
Shallow embedding of the DockerBoard authentication / post-mutation core
(`src/lib/auth.ts`, `src/lib/database.ts`, GraphQL resolvers in
`src/pages/api/graphql.ts`), together with theorems settling the claims
about it.

Conventions of the embedding:
* machine time is a `Nat` (seconds for JWT clocks, the same clock is used
  for the SQLite `datetime('now')` comparisons);
* a JWT string is modelled by `TokenStr`: every concrete string either
  parses as a signed header/payload/signature triple or it does not
  (`TokenStr.garbage`); an HMAC signature over a payload with a secret is
  modelled as the pair (payload, secret), which is faithful because HMAC
  is collision-free for the purpose of these claims;
* the SQLite tables are lists of rows; a SQL `UPDATE ... WHERE c` is a
  `map` touching exactly the rows satisfying `c`, and `changes` is the
  `countP` of `c`;
* bcrypt hashing is modelled by an injective tagging function, and
  `bcrypt.compare` by equality with the tag — the functional contract of
  the hasher;
* JavaScript string operations (`length`, `trim`) are modelled on Lean
  strings / char lists.
-/

/-- `type` claim of a JWT issued by `src/lib/auth.ts`: `"access"` or `"refresh"`. -/
inductive TokenType
  | access
  | refresh
deriving DecidableEq, Repr

/-- The JWT payload produced by `jwt.sign({ userId, type }, secret, { expiresIn })`:
the two explicit claims plus the issued-at and expiry timestamps added by the library. -/
structure Payload where
  userId : Nat
  type : TokenType
  iat : Nat
  exp : Nat
deriving DecidableEq, Repr

/-- A candidate token string: either it parses as a JWT whose signature part
is an HMAC of some payload `sp` under some secret `ss` (a genuine token has
`sp` equal to the carried payload and `ss` equal to the verifier's secret),
or it is structurally corrupt. -/
inductive TokenStr
  | jwt (p : Payload) (sp : Payload) (ss : String)
  | garbage (s : String)
deriving DecidableEq, Repr

/-- `JWT_SECRET` fallback value from `src/lib/auth.ts` (no env override modelled). -/
def JWT_SECRET : String := "your-super-secret-jwt-key-please-change-in-production"

/-- `ACCESS_TOKEN_EXPIRES = "15m"` in seconds. -/
def ACCESS_TOKEN_EXPIRES : Nat := 900

/-- `REFRESH_TOKEN_EXPIRES = "7d"` in seconds. -/
def REFRESH_TOKEN_EXPIRES : Nat := 604800

/-- `jwt.sign({ userId, type }, secret, { expiresIn: ttl })` at clock `now`:
payload carries `iat = now`, `exp = now + ttl`, and the signature is the
HMAC of that payload under `secret`. -/
def jwtSign (userId : Nat) (type : TokenType) (ttl : Nat) (now : Nat)
    (secret : String) : TokenStr :=
  TokenStr.jwt ⟨userId, type, now, now + ttl⟩ ⟨userId, type, now, now + ttl⟩ secret

/-- `jwt.verify(token, secret)` at clock `now`: checks the signature, then the
expiry (`jsonwebtoken` rejects when `now ≥ exp`); returns the decoded payload
or `none` (the `catch` in the callers turns every throw into `null`). -/
def jwtVerify (t : TokenStr) (now : Nat) (secret : String) : Option Payload :=
  match t with
  | TokenStr.jwt p sp ss =>
      if sp = p ∧ ss = secret then
        if p.exp ≤ now then none else some p
      else none
  | TokenStr.garbage _ => none

/-- `generateAccessToken(userId)` at clock `now`. -/
def generateAccessToken (userId : Nat) (now : Nat) : TokenStr :=
  jwtSign userId TokenType.access ACCESS_TOKEN_EXPIRES now JWT_SECRET

/-- `generateRefreshToken(userId)` at clock `now`. -/
def generateRefreshToken (userId : Nat) (now : Nat) : TokenStr :=
  jwtSign userId TokenType.refresh REFRESH_TOKEN_EXPIRES now JWT_SECRET

/-- `verifyAccessToken(token)` at clock `now`: decode, then reject unless
`decoded.type === "access"`; any throw is caught and becomes `null`. -/
def verifyAccessToken (t : TokenStr) (now : Nat) : Option Nat :=
  match jwtVerify t now JWT_SECRET with
  | some p => if p.type ≠ TokenType.access then none else some p.userId
  | none => none

/-- `verifyRefreshToken(token)` at clock `now`. -/
def verifyRefreshToken (t : TokenStr) (now : Nat) : Option Nat :=
  match jwtVerify t now JWT_SECRET with
  | some p => if p.type ≠ TokenType.refresh then none else some p.userId
  | none => none

/-- `bcrypt.hash(password, 12)` modelled by its functional contract: an
injective one-way tag of the password (salting only strengthens the claims
proved here, which never rely on two hashes of one password coinciding). -/
def hashPassword (password : String) : String :=
  "bcrypt12$" ++ password

/-- `bcrypt.compare(password, hashedPassword)`: true exactly when the hash
was produced from this password; never throws. -/
def verifyPassword (password hashedPassword : String) : Bool :=
  hashedPassword == hashPassword password

/-- The JS regex class `\s`: ECMAScript WhiteSpace (TAB, VT, FF, SP, NBSP,
ZWNBSP and the Unicode Zs code points) together with the LineTerminators
(LF, CR, LS, PS). -/
def jsWhitespace (c : Char) : Bool :=
  c == ' ' || c == '\t' || c == '\n' || c == '\r' ||
  c == Char.ofNat 0x0b || c == Char.ofNat 0x0c ||
  c == Char.ofNat 0xa0 || c == Char.ofNat 0x1680 ||
  (decide (Char.ofNat 0x2000 ≤ c) && decide (c ≤ Char.ofNat 0x200a)) ||
  c == Char.ofNat 0x2028 || c == Char.ofNat 0x2029 ||
  c == Char.ofNat 0x202f || c == Char.ofNat 0x205f ||
  c == Char.ofNat 0x3000 || c == Char.ofNat 0xfeff

/-- Whether a char matches the JS regex class `[^\s@]` (not whitespace, not `@`). -/
def emailCharOk (c : Char) : Bool :=
  !(c == '@') && !(jsWhitespace c)

/-- `validateEmail`: the language of `/^[^\s@]+@[^\s@]+\.[^\s@]+$/`. Since
`[^\s@]` itself contains `.`, backtracking reduces the pattern to: exactly
one `@`, a nonempty local part of `[^\s@]` chars, and a domain of `[^\s@]`
chars containing a dot at an interior position (at least one char before it
and one after it — the surrounding `[^\s@]+` runs may themselves contain
dots). -/
def validateEmail (email : String) : Bool :=
  match email.data.splitOn '@' with
  | [localPart, domain] =>
      localPart ≠ [] && localPart.all emailCharOk && domain.all emailCharOk &&
      (domain.drop 1).dropLast.contains '.'
  | _ => false

/-- Result record of `validatePassword` / `validateUsername`. -/
structure ValidationResult where
  valid : Bool
  message : Option String
deriving DecidableEq, Repr

/-- The JS regex LineTerminator chars, which `.` does not match. -/
def isLineTerminator (c : Char) : Bool :=
  c == '\n' || c == '\r' || c == Char.ofNat 0x2028 || c == Char.ofNat 0x2029

/-- The test of `(?=.*[a-z])(?=.*[A-Z])(?=.*\d)` (unanchored): a match is
tried at every position; at a position each lookahead's `.*` scans forward
without crossing a LineTerminator, so the test succeeds exactly when some
terminator-free run of the string (a line) contains an ASCII lowercase
letter, an uppercase letter and a digit (a mid-line start only sees a suffix
of its line, so line starts dominate). -/
def passwordComplexityOk (cs : List Char) : Bool :=
  (cs.splitOnP isLineTerminator).any (fun seg =>
    seg.any (fun c => decide ('a' ≤ c) && decide (c ≤ 'z')) &&
    seg.any (fun c => decide ('A' ≤ c) && decide (c ≤ 'Z')) &&
    seg.any (fun c => decide ('0' ≤ c) && decide (c ≤ '9')))

/-- `validatePassword`: length ≥ 8 and the lookahead regex test above. -/
def validatePassword (password : String) : ValidationResult :=
  if password.length < 8 then
    ⟨false, some "비밀번호는 8자 이상이어야 합니다."⟩
  else if !(passwordComplexityOk password.data) then
    ⟨false, some "비밀번호는 대문자, 소문자, 숫자를 각각 하나 이상 포함해야 합니다."⟩
  else
    ⟨true, none⟩

/-- Whether a char matches the JS regex class `[a-zA-Z0-9_가-힣]`. -/
def usernameCharOk (c : Char) : Bool :=
  (decide ('a' ≤ c) && decide (c ≤ 'z')) || (decide ('A' ≤ c) && decide (c ≤ 'Z')) ||
  (decide ('0' ≤ c) && decide (c ≤ '9')) || c == '_' ||
  (decide ('가' ≤ c) && decide (c ≤ '힣'))

/-- `validateUsername`: 3–20 chars, all from `[a-zA-Z0-9_가-힣]`. -/
def validateUsername (username : String) : ValidationResult :=
  if username.length < 3 then
    ⟨false, some "사용자명은 3자 이상이어야 합니다."⟩
  else if username.length > 20 then
    ⟨false, some "사용자명은 20자 이하여야 합니다."⟩
  else if !(username.data.all usernameCharOk && username.data ≠ []) then
    ⟨false, some "사용자명은 영문, 숫자, 언더스코어, 한글만 사용할 수 있습니다."⟩
  else
    ⟨true, none⟩

/-- A row of the `users` table (`src/lib/database.ts` schema): `NULL`able
columns are `Option`s; the mirrored refresh token column stores the JWT string. -/
structure UserRow where
  id : Nat
  email : String
  username : String
  passwordHash : String
  isVerified : Bool
  verificationToken : Option String
  verificationExpires : Option Nat
  refreshToken : Option TokenStr
deriving DecidableEq, Repr

/-- A row of the `posts` table. -/
structure PostRow where
  id : Nat
  title : String
  content : String
  authorId : Nat
deriving DecidableEq, Repr

/-- The `WHERE` clause of `verifyUserEmail`'s conditional `UPDATE`:
`verification_token = ? AND verification_expires > datetime('now') AND
is_verified = FALSE` (a SQL comparison against `NULL` is not satisfied). -/
def verifyUserEmailCond (token : String) (now : Nat) (u : UserRow) : Bool :=
  u.verificationToken == some token &&
  (match u.verificationExpires with
   | some e => decide (now < e)
   | none => false) &&
  !u.isVerified

/-- `verifyUserEmail(token)` at clock `now`: one conditional `UPDATE` setting
`is_verified = TRUE` and nulling token and expiry on every row satisfying the
guard; returns `changes > 0`. -/
def verifyUserEmail (token : String) (now : Nat) (users : List UserRow) :
    List UserRow × Bool :=
  (users.map (fun u =>
      if verifyUserEmailCond token now u then
        { u with isVerified := true, verificationToken := none,
                 verificationExpires := none }
      else u),
   decide (0 < users.countP (verifyUserEmailCond token now)))

/-- The `WHERE` clause of `cleanupExpiredTokens`:
`verification_expires < datetime('now') AND is_verified = FALSE`. -/
def cleanupCond (now : Nat) (u : UserRow) : Bool :=
  (match u.verificationExpires with
   | some e => decide (e < now)
   | none => false) &&
  !u.isVerified

/-- `cleanupExpiredTokens()` at clock `now`: nulls verification token and
expiry on every row satisfying the guard; returns `changes`. -/
def cleanupExpiredTokens (now : Nat) (users : List UserRow) :
    List UserRow × Nat :=
  (users.map (fun u =>
      if cleanupCond now u then
        { u with verificationToken := none, verificationExpires := none }
      else u),
   users.countP (cleanupCond now))

/-- `findUserByEmailForAuth(email)`: `database.get` returns the first matching row. -/
def findUserByEmailForAuth (email : String) (users : List UserRow) :
    Option UserRow :=
  users.find? (fun u => u.email == email)

/-- `findUserById(id)`. -/
def findUserById (id : Nat) (users : List UserRow) : Option UserRow :=
  users.find? (fun u => u.id == id)

/-- `findUserByRefreshToken(refreshToken)`: `WHERE refresh_token = ?`
(a `NULL` column never matches). -/
def findUserByRefreshToken (rt : TokenStr) (users : List UserRow) :
    Option UserRow :=
  users.find? (fun u => u.refreshToken == some rt)

/-- `saveRefreshToken(userId, refreshToken)`: `UPDATE users SET refresh_token = ? WHERE id = ?`. -/
def saveRefreshToken (userId : Nat) (rt : TokenStr) (users : List UserRow) :
    List UserRow :=
  users.map (fun u => if u.id == userId then { u with refreshToken := some rt } else u)

/-- `removeRefreshToken(userId)`: `UPDATE users SET refresh_token = NULL WHERE id = ?`. -/
def removeRefreshToken (userId : Nat) (users : List UserRow) : List UserRow :=
  users.map (fun u => if u.id == userId then { u with refreshToken := none } else u)

/-- `deletePost(postId, authorId)` (persistence layer): one compound-condition
`DELETE FROM posts WHERE id = ? AND author_id = ?`; returns `changes > 0`. -/
def deletePostDb (postId authorId : Nat) (posts : List PostRow) :
    List PostRow × Bool :=
  (posts.filter (fun p => !(p.id == postId && p.authorId == authorId)),
   decide (0 < posts.countP (fun p => p.id == postId && p.authorId == authorId)))

/-- Argument record of `createUser`. -/
structure CreateUserData where
  email : String
  username : String
  passwordHash : String
  verificationToken : String
deriving DecidableEq, Repr

/-- `createUser(userData)` at clock `now` with the store's next AUTOINCREMENT
id: the `INSERT` sets `verification_expires = datetime('now', '+1 hour')` and
leaves `is_verified` at its `FALSE` default; a `UNIQUE constraint failed`
error on `email`/`username` is translated to the matching user-facing message
(any other failure, e.g. a verification-token collision, falls through to the
generic message). -/
def createUser (d : CreateUserData) (now nextId : Nat) (users : List UserRow) :
    Except String (UserRow × List UserRow) :=
  if users.any (fun u => u.email == d.email) then
    Except.error "이미 사용 중인 이메일입니다."
  else if users.any (fun u => u.username == d.username) then
    Except.error "이미 사용 중인 사용자명입니다."
  else if users.any (fun u => u.verificationToken == some d.verificationToken) then
    Except.error "사용자 생성에 실패했습니다."
  else
    let u : UserRow :=
      ⟨nextId, d.email, d.username, d.passwordHash, false,
       some d.verificationToken, some (now + 3600), none⟩
    Except.ok (u, users ++ [u])

/-- The value of an `Authorization` request header, partitioned by the only
test `getUserIdFromAuthHeader` applies to the raw string: either it starts
with `"Bearer "` and the remainder is a candidate token string, or it does
not (including the empty string, which is also falsy in JS). -/
inductive AuthHeaderVal
  | notBearer (s : String)
  | bearer (t : TokenStr)
deriving DecidableEq, Repr

/-- `getUserIdFromAuthHeader(authHeader)` at clock `now`: `null` when the
header is absent or does not start with `"Bearer "`; otherwise the remainder
is verified as an access token and the result is `decoded?.userId || null` —
the JS `||` coerces a `userId` of `0` (falsy) to `null`. -/
def getUserIdFromAuthHeader (h : Option AuthHeaderVal) (now : Nat) : Option Nat :=
  match h with
  | none => none
  | some (AuthHeaderVal.notBearer _) => none
  | some (AuthHeaderVal.bearer t) =>
      match verifyAccessToken t now with
      | some uid => if uid == 0 then none else some uid
      | none => none

/-- Hex digit used by the uuid library's byte-to-hex table (lowercase). -/
def hexDigit (n : Nat) : Char :=
  if n < 10 then Char.ofNat (48 + n) else Char.ofNat (87 + n)

/-- One byte as two lowercase hex chars. -/
def byteToHex (b : Nat) : List Char :=
  [hexDigit (b / 16), hexDigit (b % 16)]

/-- The version/variant fixing of uuid v4 on 16 random bytes, from index `i`:
`rnds[6] = (rnds[6] & 0x0f) | 0x40` and `rnds[8] = (rnds[8] & 0x3f) | 0x80`. -/
def v4SetBits (i : Nat) (rnds : List Nat) : List Nat :=
  match rnds with
  | [] => []
  | b :: bs =>
      (if i = 6 then b % 16 + 64 else if i = 8 then b % 64 + 128 else b) ::
        v4SetBits (i + 1) bs

/-- The uuid string layout: 32 hex chars with hyphens after chars 8, 12, 16, 20. -/
def hyphenate (cs : List Char) : List Char :=
  cs.take 8 ++ '-' :: ((cs.drop 8).take 4 ++ '-' :: ((cs.drop 12).take 4 ++
    '-' :: ((cs.drop 16).take 4 ++ '-' :: cs.drop 20)))

/-- `uuidv4()` on the 16 random bytes drawn by the library. -/
def uuidv4 (rnds : List Nat) : String :=
  ⟨hyphenate ((v4SetBits 0 rnds).flatMap byteToHex)⟩

/-- `generateVerificationToken()`: the uuid v4 string with every hyphen
removed (the global-replace of hyphens by the empty string). -/
def generateVerificationToken (rnds : List Nat) : String :=
  ⟨(uuidv4 rnds).data.filter (fun c => !(c == '-'))⟩

/-- `RegisterResponse` of the GraphQL schema. -/
structure RegisterResponse where
  success : Bool
  message : String
  emailSent : Bool
deriving DecidableEq, Repr

/-- The `register` resolver at clock `now`, parameterised by the random
verification token `vtok` the run draws and by the outcome `mailSuccess` of
the external `sendVerificationEmail` collaborator: validates email, then
username, then password (each thrown message is caught and returned with
`success: false`); only then hashes, creates the user, and dispatches the
mail, whose failure is non-fatal. -/
def register (email username password vtok : String) (mailSuccess : Bool)
    (now nextId : Nat) (users : List UserRow) :
    RegisterResponse × List UserRow :=
  if !validateEmail email then
    (⟨false, "올바른 이메일 주소를 입력해주세요.", false⟩, users)
  else if !(validateUsername username).valid then
    (⟨false, (validateUsername username).message.getD "회원가입에 실패했습니다.", false⟩, users)
  else if !(validatePassword password).valid then
    (⟨false, (validatePassword password).message.getD "회원가입에 실패했습니다.", false⟩, users)
  else
    match createUser ⟨email, username, hashPassword password, vtok⟩ now nextId users with
    | Except.error msg => (⟨false, msg, false⟩, users)
    | Except.ok (_, users2) =>
        (⟨true,
          if mailSuccess then
            "회원가입이 완료되었습니다! 이메일을 확인하여 계정을 인증해주세요. (1시간 내)"
          else
            "회원가입은 완료되었지만 이메일 발송에 실패했습니다. 관리자에게 문의해주세요.",
          mailSuccess⟩, users2)

/-- The `AuthPayload` returned by `login` / `refreshToken`: both tokens plus
the public user view (no password hash). -/
structure AuthPayload where
  accessToken : TokenStr
  refreshToken : TokenStr
  userId : Nat
  userEmail : String
  userUsername : String
  userIsVerified : Bool
deriving DecidableEq, Repr

/-- The `login` resolver at clock `now`: look the user up by email, check the
password against the stored hash, check the verified flag — each failure
throws its own message; on success issue both tokens, persist the refresh
token on the row, and return the payload. -/
def login (email password : String) (now : Nat) (users : List UserRow) :
    Except String AuthPayload × List UserRow :=
  match findUserByEmailForAuth email users with
  | none => (Except.error "존재하지 않는 이메일입니다.", users)
  | some u =>
      if !verifyPassword password u.passwordHash then
        (Except.error "비밀번호가 올바르지 않습니다.", users)
      else if !u.isVerified then
        (Except.error "이메일 인증을 완료해주세요. 인증 이메일을 확인하세요.", users)
      else
        let atk := generateAccessToken u.id now
        let rtk := generateRefreshToken u.id now
        (Except.ok ⟨atk, rtk, u.id, u.email, u.username, u.isVerified⟩,
         saveRefreshToken u.id rtk users)

/-- The `refreshToken` resolver at clock `now`: verify the presented string as
a refresh-kind token, then require a user row whose stored `refresh_token`
equals it; on success issue a fresh pair and store the new refresh token
(rotation). -/
def refreshTokenResolver (rt : TokenStr) (now : Nat) (users : List UserRow) :
    Except String AuthPayload × List UserRow :=
  match verifyRefreshToken rt now with
  | none => (Except.error "유효하지 않은 Refresh Token입니다.", users)
  | some _ =>
      match findUserByRefreshToken rt users with
      | none => (Except.error "Refresh Token이 만료되었거나 유효하지 않습니다.", users)
      | some u =>
          let atk := generateAccessToken u.id now
          let rtk := generateRefreshToken u.id now
          (Except.ok ⟨atk, rtk, u.id, u.email, u.username, u.isVerified⟩,
           saveRefreshToken u.id rtk users)

/-- JS `String.prototype.trim()`: strip leading and trailing whitespace. -/
def jsTrim (s : String) : String :=
  ⟨((s.data.dropWhile Char.isWhitespace).reverse.dropWhile
      Char.isWhitespace).reverse⟩

/-- The `Post` view returned by the `createPost` resolver (author name
denormalized by the `JOIN` in the persistence layer). -/
structure PostView where
  id : Nat
  title : String
  content : String
  authorId : Nat
  authorUsername : String
deriving DecidableEq, Repr

/-- The `createPost` resolver at clock `now`: resolve the caller from the
header, require the user row to exist and be verified, then validate
title/content (`!title || title.trim().length === 0`, the symmetric content
check, `title.length > 200`, `content.length > 10000`), and finally insert
the trimmed strings attributed to the caller. -/
def createPostResolver (h : Option AuthHeaderVal) (title content : String)
    (now nextPostId : Nat) (users : List UserRow) (posts : List PostRow) :
    Except String PostView × List PostRow :=
  match getUserIdFromAuthHeader h now with
  | none => (Except.error "로그인이 필요합니다.", posts)
  | some userId =>
      match findUserById userId users with
      | none => (Except.error "유효하지 않은 사용자입니다.", posts)
      | some user =>
          if !user.isVerified then
            (Except.error "이메일 인증을 완료해주세요.", posts)
          else if title == "" || (jsTrim title).length == 0 then
            (Except.error "제목을 입력해주세요.", posts)
          else if content == "" || (jsTrim content).length == 0 then
            (Except.error "내용을 입력해주세요.", posts)
          else if title.length > 200 then
            (Except.error "제목은 200자 이하로 입력해주세요.", posts)
          else if content.length > 10000 then
            (Except.error "내용은 10,000자 이하로 입력해주세요.", posts)
          else
            let p : PostRow := ⟨nextPostId, jsTrim title, jsTrim content, userId⟩
            (Except.ok ⟨p.id, p.title, p.content, p.authorId, user.username⟩,
             posts ++ [p])

/-- The user-state invariant of the spec: a user is either unverified with a
non-null verification token and expiry, or verified with both null. -/
def userInvariant (u : UserRow) : Prop :=
  (u.isVerified = false ∧ u.verificationToken ≠ none ∧ u.verificationExpires ≠ none) ∨
  (u.isVerified = true ∧ u.verificationToken = none ∧ u.verificationExpires = none)

/-- The weaker invariant the code actually maintains: a verified user has
null verification token and expiry. -/
def userInvariantWeak (u : UserRow) : Prop :=
  u.isVerified = true → u.verificationToken = none ∧ u.verificationExpires = none

/-- C2: for every user id and unexpired lifetime, a token issued as kind
"access" verifies as "access" to its embedded subject id and verifies as
"refresh" to null, and symmetrically for "refresh"-kind tokens; verification
is a total function returning an `Option` (never throws) and yields `none`
exactly when the signature mismatches, the string is structurally corrupt,
the expiry has elapsed, or the kind mismatches. -/
theorem c2_token_codec (uid ttl now now2 : Nat) (h : now2 < now + ttl) :
    verifyAccessToken (jwtSign uid TokenType.access ttl now JWT_SECRET) now2 = some uid
  ∧ verifyRefreshToken (jwtSign uid TokenType.access ttl now JWT_SECRET) now2 = none
  ∧ verifyRefreshToken (jwtSign uid TokenType.refresh ttl now JWT_SECRET) now2 = some uid
  ∧ verifyAccessToken (jwtSign uid TokenType.refresh ttl now JWT_SECRET) now2 = none
  ∧ (∀ p sp ss t2, verifyAccessToken (TokenStr.jwt p sp ss) t2 =
      if sp = p ∧ ss = JWT_SECRET ∧ t2 < p.exp ∧ p.type = TokenType.access then
        some p.userId else none)
  ∧ (∀ p sp ss t2, verifyRefreshToken (TokenStr.jwt p sp ss) t2 =
      if sp = p ∧ ss = JWT_SECRET ∧ t2 < p.exp ∧ p.type = TokenType.refresh then
        some p.userId else none)
  ∧ (∀ s t2, verifyAccessToken (TokenStr.garbage s) t2 = none
      ∧ verifyRefreshToken (TokenStr.garbage s) t2 = none) := by
  refine ⟨?_, ?_, ?_, ?_, ?_, ?_, ?_⟩
  · simp [verifyAccessToken, jwtSign, jwtVerify, Nat.not_le.mpr h]
  · simp [verifyRefreshToken, jwtSign, jwtVerify, Nat.not_le.mpr h]
  · simp [verifyRefreshToken, jwtSign, jwtVerify, Nat.not_le.mpr h]
  · simp [verifyAccessToken, jwtSign, jwtVerify, Nat.not_le.mpr h]
  · intro p sp ss t2
    by_cases hsig : sp = p ∧ ss = JWT_SECRET
    · by_cases hexp : p.exp ≤ t2
      · simp [verifyAccessToken, jwtVerify, hsig, hexp, Nat.not_lt.mpr hexp]
      · by_cases hty : p.type = TokenType.access
        · simp [verifyAccessToken, jwtVerify, hsig, hexp, hty, Nat.not_le.mp hexp]
        · simp [verifyAccessToken, jwtVerify, hsig, hexp, hty]
    · have : ¬ (sp = p ∧ ss = JWT_SECRET ∧ t2 < p.exp ∧ p.type = TokenType.access) := by
        intro hc
        exact hsig ⟨hc.1, hc.2.1⟩
      simp [verifyAccessToken, jwtVerify, hsig, this]
  · intro p sp ss t2
    by_cases hsig : sp = p ∧ ss = JWT_SECRET
    · by_cases hexp : p.exp ≤ t2
      · simp [verifyRefreshToken, jwtVerify, hsig, hexp, Nat.not_lt.mpr hexp]
      · by_cases hty : p.type = TokenType.refresh
        · simp [verifyRefreshToken, jwtVerify, hsig, hexp, hty, Nat.not_le.mp hexp]
        · simp [verifyRefreshToken, jwtVerify, hsig, hexp, hty]
    · have : ¬ (sp = p ∧ ss = JWT_SECRET ∧ t2 < p.exp ∧ p.type = TokenType.refresh) := by
        intro hc
        exact hsig ⟨hc.1, hc.2.1⟩
      simp [verifyRefreshToken, jwtVerify, hsig, this]
  · intro s t2
    exact ⟨rfl, rfl⟩

/-- Witness for `c2_token_codec` at uid 7, ttl 900, issued at 0, verified at 10. -/
theorem c2_token_codec_witness :
    verifyAccessToken (jwtSign 7 TokenType.access 900 0 JWT_SECRET) 10 = some 7
  ∧ verifyRefreshToken (jwtSign 7 TokenType.access 900 0 JWT_SECRET) 10 = none := by
  have h := c2_token_codec 7 900 0 10 (by decide)
  exact ⟨h.1, h.2.1⟩

/-- The guard of the conditional update, stated propositionally. -/
lemma verifyUserEmailCond_iff (token : String) (now : Nat) (u : UserRow) :
    verifyUserEmailCond token now u = true ↔
      (u.verificationToken = some token ∧
       (∃ e, u.verificationExpires = some e ∧ now < e) ∧ u.isVerified = false) := by
  unfold verifyUserEmailCond
  cases hexp : u.verificationExpires with
  | none => simp [hexp]
  | some e => simp [hexp, and_assoc]

/-- A row satisfying the guard at a later clock satisfied it at any earlier one. -/
lemma verifyUserEmailCond_mono (token : String) (now now2 : Nat) (u : UserRow)
    (h : now ≤ now2) (hc : verifyUserEmailCond token now2 u = true) :
    verifyUserEmailCond token now u = true := by
  rw [verifyUserEmailCond_iff] at hc ⊢
  obtain ⟨h1, ⟨e, he, hlt⟩, h3⟩ := hc
  exact ⟨h1, ⟨e, he, lt_of_le_of_lt h hlt⟩, h3⟩

/-- C1: the email-verification update succeeds iff some stored row carries the
supplied token, with an expiry strictly in the future, and is still
unverified; each result row is either an untouched non-matching original or a
matching original with the flag set and token and expiry cleared; and —
whatever happened and for any not-earlier clock — a second call with the same
token reports false. -/
theorem c1_verify_email (token : String) (now now2 : Nat) (users : List UserRow)
    (hmono : now ≤ now2) :
    ((verifyUserEmail token now users).2 = true ↔
      ∃ u ∈ users, u.verificationToken = some token ∧
        (∃ e, u.verificationExpires = some e ∧ now < e) ∧ u.isVerified = false)
  ∧ (∀ u2 ∈ (verifyUserEmail token now users).1,
      (u2 ∈ users ∧ verifyUserEmailCond token now u2 = false) ∨
      (u2.isVerified = true ∧ u2.verificationToken = none ∧
        u2.verificationExpires = none ∧
        ∃ u ∈ users, verifyUserEmailCond token now u = true ∧
          u2 = { u with isVerified := true, verificationToken := none,
                        verificationExpires := none }))
  ∧ (verifyUserEmail token now2 (verifyUserEmail token now users).1).2 = false := by
  refine ⟨?_, ?_, ?_⟩
  · simp only [verifyUserEmail, decide_eq_true_eq, List.countP_pos_iff]
    constructor
    · rintro ⟨u, hu, hc⟩
      exact ⟨u, hu, (verifyUserEmailCond_iff token now u).mp hc⟩
    · rintro ⟨u, hu, hc⟩
      exact ⟨u, hu, (verifyUserEmailCond_iff token now u).mpr hc⟩
  · intro u2 hu2
    simp only [verifyUserEmail] at hu2
    obtain ⟨u, hu, rfl⟩ := List.mem_map.mp hu2
    by_cases hc : verifyUserEmailCond token now u = true
    · simp only [hc, if_true]
      exact Or.inr ⟨trivial, trivial, trivial, u, hu, hc, rfl⟩
    · simp only [hc, if_false]
      exact Or.inl ⟨hu, Bool.eq_false_iff.mpr hc⟩
  · have hall : ∀ u2 ∈ (verifyUserEmail token now users).1,
        ¬ verifyUserEmailCond token now2 u2 = true := by
      intro u2 hu2
      simp only [verifyUserEmail] at hu2
      obtain ⟨u, hu, rfl⟩ := List.mem_map.mp hu2
      by_cases hc : verifyUserEmailCond token now u = true
      · simp only [hc, if_true]
        intro hc2
        rw [verifyUserEmailCond_iff] at hc2
        simp at hc2
      · simp only [hc, if_false]
        intro hc2
        exact hc (verifyUserEmailCond_mono token now now2 u hmono hc2)
    simp only [verifyUserEmail, decide_eq_false_iff_not, List.countP_pos_iff]
    rintro ⟨u2, hu2, hc2⟩
    exact hall u2 hu2 hc2

/-- Witness for `c1_verify_email`: a one-row store where verification
succeeds at clock 0 and the repeated call at clock 1 fails. -/
theorem c1_verify_email_witness :
    (verifyUserEmail "t" 0 [⟨1, "a@b.c", "alice", "h", false, some "t", some 5, none⟩]).2 = true
  ∧ (verifyUserEmail "t" 1
      (verifyUserEmail "t" 0 [⟨1, "a@b.c", "alice", "h", false, some "t", some 5, none⟩]).1).2 = false := by
  have h := c1_verify_email "t" 0 1
    [⟨1, "a@b.c", "alice", "h", false, some "t", some 5, none⟩] (by decide)
  refine ⟨h.1.mpr ?_, h.2.2⟩
  exact ⟨⟨1, "a@b.c", "alice", "h", false, some "t", some 5, none⟩,
    List.mem_singleton.mpr rfl, rfl, ⟨5, rfl, by decide⟩, rfl⟩

/-- C3: the refresh operation succeeds exactly when the presented token is a
cryptographically valid, non-expired refresh-kind token and some user row
stores it as its current refresh token; each failing check yields its own
error and leaves the store unchanged — in particular a still-valid but
superseded token fails on the stored-token check; on success a fresh
access/refresh pair is issued and the new refresh token overwrites the stored
one (rotation). -/
theorem c3_refresh_rotation (rt : TokenStr) (now : Nat) (users : List UserRow) :
    ((∃ p, (refreshTokenResolver rt now users).1 = Except.ok p) ↔
      ((verifyRefreshToken rt now).isSome ∧ (findUserByRefreshToken rt users).isSome))
  ∧ (verifyRefreshToken rt now = none →
      refreshTokenResolver rt now users =
        (Except.error "유효하지 않은 Refresh Token입니다.", users))
  ∧ ((verifyRefreshToken rt now).isSome → findUserByRefreshToken rt users = none →
      refreshTokenResolver rt now users =
        (Except.error "Refresh Token이 만료되었거나 유효하지 않습니다.", users))
  ∧ (∀ u, (verifyRefreshToken rt now).isSome → findUserByRefreshToken rt users = some u →
      refreshTokenResolver rt now users =
        (Except.ok ⟨generateAccessToken u.id now, generateRefreshToken u.id now,
            u.id, u.email, u.username, u.isVerified⟩,
         saveRefreshToken u.id (generateRefreshToken u.id now) users)) := by
  refine ⟨?_, ?_, ?_, ?_⟩
  · cases hv : verifyRefreshToken rt now with
    | none =>
        simp [refreshTokenResolver, hv]
    | some uid =>
        cases hf : findUserByRefreshToken rt users with
        | none => simp [refreshTokenResolver, hv, hf]
        | some u => simp [refreshTokenResolver, hv, hf]
  · intro hv
    simp [refreshTokenResolver, hv]
  · intro hv hf
    cases hv' : verifyRefreshToken rt now with
    | none => rw [hv'] at hv; simp at hv
    | some uid => simp [refreshTokenResolver, hv', hf]
  · intro u hv hf
    cases hv' : verifyRefreshToken rt now with
    | none => rw [hv'] at hv; simp at hv
    | some uid => simp [refreshTokenResolver, hv', hf]

/-- Witness for `c3_refresh_rotation`: a refresh token issued at clock 0,
still valid at clock 10, fails because the row now stores the token issued at
clock 5 (superseded); the stored token itself succeeds. -/
theorem c3_refresh_rotation_witness :
    refreshTokenResolver (generateRefreshToken 1 0) 10
      [⟨1, "a@b.c", "alice", "h", true, none, none, some (generateRefreshToken 1 5)⟩] =
      (Except.error "Refresh Token이 만료되었거나 유효하지 않습니다.",
       [⟨1, "a@b.c", "alice", "h", true, none, none, some (generateRefreshToken 1 5)⟩])
  ∧ (∃ p, (refreshTokenResolver (generateRefreshToken 1 5) 10
      [⟨1, "a@b.c", "alice", "h", true, none, none, some (generateRefreshToken 1 5)⟩]).1 =
        Except.ok p) := by
  constructor
  · exact (c3_refresh_rotation (generateRefreshToken 1 0) 10
      [⟨1, "a@b.c", "alice", "h", true, none, none, some (generateRefreshToken 1 5)⟩]).2.2.1
      (by decide) (by decide)
  · exact (c3_refresh_rotation (generateRefreshToken 1 5) 10
      [⟨1, "a@b.c", "alice", "h", true, none, none, some (generateRefreshToken 1 5)⟩]).1.mpr
      ⟨by decide, by decide⟩

/-- In the successful branch, `createUser` appends exactly one fresh
unverified row carrying the token and a one-hour expiry. -/
lemma createUser_ok (d : CreateUserData) (now nextId : Nat) (users : List UserRow)
    (u : UserRow) (users2 : List UserRow)
    (h : createUser d now nextId users = Except.ok (u, users2)) :
    u = ⟨nextId, d.email, d.username, d.passwordHash, false,
         some d.verificationToken, some (now + 3600), none⟩ ∧
    users2 = users ++
      [⟨nextId, d.email, d.username, d.passwordHash, false,
        some d.verificationToken, some (now + 3600), none⟩] := by
  unfold createUser at h
  split at h
  · exact absurd h (by simp)
  · split at h
    · exact absurd h (by simp)
    · split at h
      · exact absurd h (by simp)
      · simp only [Except.ok.injEq, Prod.mk.injEq] at h
        exact ⟨h.1.symm, h.2.symm⟩

/-- Mapping a row transformer that preserves the weak invariant preserves it
across the whole table. -/
lemma weak_invariant_map (f : UserRow → UserRow)
    (hf : ∀ u, userInvariantWeak u → userInvariantWeak (f u))
    (users : List UserRow) (hW : ∀ u ∈ users, userInvariantWeak u) :
    ∀ u ∈ users.map f, userInvariantWeak u := by
  intro u hu
  obtain ⟨v, hv, rfl⟩ := List.mem_map.mp hu
  exact hf v (hW v hv)

/-- `saveRefreshToken` / `removeRefreshToken` touch only the mirrored token
column, so they preserve the weak invariant row-wise. -/
lemma weak_invariant_refresh_fields (u : UserRow) (rt : Option TokenStr)
    (h : userInvariantWeak u) :
    userInvariantWeak { u with refreshToken := rt } := by
  intro hv
  exact h hv

/-- C4 counterexample: the full user-state invariant (unverified rows have a
non-null verification token and expiry) holds before the cleanup sweep and is
destroyed by it — the swept row is still unverified but both columns are
nulled, so the sweep does not preserve the claimed invariant. -/
theorem c4_invariant_counterexample :
    userInvariant (⟨1, "a@b.c", "alice", "h", false, some "t", some 5, none⟩ : UserRow)
  ∧ (cleanupExpiredTokens 10
      [⟨1, "a@b.c", "alice", "h", false, some "t", some 5, none⟩]).1 =
      [⟨1, "a@b.c", "alice", "h", false, none, none, none⟩]
  ∧ ¬ userInvariant (⟨1, "a@b.c", "alice", "h", false, none, none, none⟩ : UserRow) := by
  refine ⟨Or.inl ⟨rfl, by simp, by simp⟩, by decide, ?_⟩
  rintro (⟨_, htok, _⟩ | ⟨hver, _, _⟩)
  · exact htok rfl
  · exact Bool.false_ne_true hver

/-- C4 amended: every table-touching operation preserves the weaker invariant
that a verified user has null verification token and expiry (the cleanup
sweep leaves expired unverified rows with both columns null, so only this
weaker invariant — not the full two-state invariant — is preserved by every
operation). -/
theorem c4_weak_invariant_preserved
    (token email username password vtok : String) (mail : Bool)
    (now nextId uid : Nat) (rt rt2 : TokenStr) (users : List UserRow)
    (hW : ∀ u ∈ users, userInvariantWeak u) :
    (∀ u ∈ (verifyUserEmail token now users).1, userInvariantWeak u)
  ∧ (∀ u ∈ (cleanupExpiredTokens now users).1, userInvariantWeak u)
  ∧ (∀ u ∈ saveRefreshToken uid rt users, userInvariantWeak u)
  ∧ (∀ u ∈ removeRefreshToken uid users, userInvariantWeak u)
  ∧ (∀ u ∈ (register email username password vtok mail now nextId users).2,
      userInvariantWeak u)
  ∧ (∀ u ∈ (login email password now users).2, userInvariantWeak u)
  ∧ (∀ u ∈ (refreshTokenResolver rt2 now users).2, userInvariantWeak u) := by
  have hsave : ∀ i t, ∀ u ∈ saveRefreshToken i t users, userInvariantWeak u := by
    intro i t
    apply weak_invariant_map _ _ users hW
    intro u hu
    by_cases hid : (u.id == i) = true
    · simp only [hid, if_true]
      exact weak_invariant_refresh_fields u _ hu
    · simp only [hid, if_false]
      exact hu
  refine ⟨?_, ?_, hsave uid rt, ?_, ?_, ?_, ?_⟩
  · apply weak_invariant_map _ _ users hW
    intro u hu
    by_cases hc : verifyUserEmailCond token now u = true
    · simp only [hc, if_true]
      intro _
      exact ⟨rfl, rfl⟩
    · simp only [hc, if_false]
      exact hu
  · apply weak_invariant_map _ _ users hW
    intro u hu
    by_cases hc : cleanupCond now u = true
    · simp only [hc, if_true]
      intro _
      exact ⟨rfl, rfl⟩
    · simp only [hc, if_false]
      exact hu
  · apply weak_invariant_map _ _ users hW
    intro u hu
    by_cases hid : (u.id == uid) = true
    · simp only [hid, if_true]
      exact weak_invariant_refresh_fields u _ hu
    · simp only [hid, if_false]
      exact hu
  · unfold register
    split
    · exact hW
    · split
      · exact hW
      · split
        · exact hW
        · split
          · exact hW
          · rename_i u2 users2 heq
            obtain ⟨_, h2⟩ := createUser_ok _ _ _ _ _ _ heq
            rw [h2]
            intro u hu
            rcases List.mem_append.mp hu with hl | hr
            · exact hW u hl
            · rw [List.mem_singleton.mp hr]
              intro hv
              exact absurd hv (by simp)
  · cases hfind : findUserByEmailForAuth email users with
    | none =>
        simp only [login, hfind]
        exact hW
    | some u0 =>
        cases hpw : verifyPassword password u0.passwordHash with
        | false =>
            simp [login, hfind, hpw]
            exact hW
        | true =>
            cases hver : u0.isVerified with
            | false =>
                simp [login, hfind, hpw, hver]
                exact hW
            | true =>
                simp [login, hfind, hpw, hver]
                exact hsave u0.id (generateRefreshToken u0.id now)
  · unfold refreshTokenResolver
    cases hv : verifyRefreshToken rt2 now with
    | none => exact hW
    | some uid2 =>
        cases hf : findUserByRefreshToken rt2 users with
        | none => exact hW
        | some u0 => exact hsave u0.id (generateRefreshToken u0.id now)

/-- Witness for `c4_weak_invariant_preserved` on a concrete two-row store:
the verified row that survives the cleanup sweep has both columns null. -/
theorem c4_weak_invariant_witness :
    (⟨2, "c@d.e", "bob", "h2", true, none, none, none⟩ : UserRow).verificationToken = none ∧
    (⟨2, "c@d.e", "bob", "h2", true, none, none, none⟩ : UserRow).verificationExpires = none := by
  have h := c4_weak_invariant_preserved "t" "a@b.c" "alice" "Password1" "v" true 10 3 1
    (TokenStr.garbage "x") (TokenStr.garbage "x")
    [⟨1, "a@b.c", "alice", "h", false, some "t", some 5, none⟩,
     ⟨2, "c@d.e", "bob", "h2", true, none, none, none⟩]
    (by
      intro u hu
      rcases List.mem_cons.mp hu with rfl | hu2
      · intro hv; exact absurd hv (by simp)
      · rw [List.mem_singleton.mp hu2]
        intro _; exact ⟨rfl, rfl⟩)
  exact h.2.1 ⟨2, "c@d.e", "bob", "h2", true, none, none, none⟩ (by decide) rfl

/-- C5: login fails with an authentication error in exactly three cases — no
user row with the email, a password that does not verify against the stored
hash, an unverified user — and each case yields its own message, the three
messages being pairwise distinct (the source's Korean texts for "no such
email", "wrong password", "email not verified"). -/
theorem c5_login_errors (email password : String) (now : Nat) (users : List UserRow) :
    ((login email password now users).1 = Except.error "존재하지 않는 이메일입니다." ↔
      findUserByEmailForAuth email users = none)
  ∧ ((login email password now users).1 = Except.error "비밀번호가 올바르지 않습니다." ↔
      ∃ u, findUserByEmailForAuth email users = some u ∧
        verifyPassword password u.passwordHash = false)
  ∧ ((login email password now users).1 =
        Except.error "이메일 인증을 완료해주세요. 인증 이메일을 확인하세요." ↔
      ∃ u, findUserByEmailForAuth email users = some u ∧
        verifyPassword password u.passwordHash = true ∧ u.isVerified = false)
  ∧ ((∃ e, (login email password now users).1 = Except.error e) ↔
      (findUserByEmailForAuth email users = none ∨
       ∃ u, findUserByEmailForAuth email users = some u ∧
         (verifyPassword password u.passwordHash = false ∨ u.isVerified = false)))
  ∧ ("존재하지 않는 이메일입니다." : String) ≠ "비밀번호가 올바르지 않습니다."
  ∧ ("존재하지 않는 이메일입니다." : String) ≠ "이메일 인증을 완료해주세요. 인증 이메일을 확인하세요."
  ∧ ("비밀번호가 올바르지 않습니다." : String) ≠ "이메일 인증을 완료해주세요. 인증 이메일을 확인하세요." := by
  refine ⟨?_, ?_, ?_, ?_, by decide, by decide, by decide⟩
  · cases hfind : findUserByEmailForAuth email users with
    | none => simp [login, hfind]
    | some u0 =>
        cases hpw : verifyPassword password u0.passwordHash with
        | false => simp [login, hfind, hpw]
        | true =>
            cases hver : u0.isVerified with
            | false => simp [login, hfind, hpw, hver]
            | true => simp [login, hfind, hpw, hver]
  · cases hfind : findUserByEmailForAuth email users with
    | none => simp [login, hfind]
    | some u0 =>
        cases hpw : verifyPassword password u0.passwordHash with
        | false => simp [login, hfind, hpw]
        | true =>
            cases hver : u0.isVerified with
            | false => simp [login, hfind, hpw, hver]
            | true => simp [login, hfind, hpw, hver]
  · cases hfind : findUserByEmailForAuth email users with
    | none => simp [login, hfind]
    | some u0 =>
        cases hpw : verifyPassword password u0.passwordHash with
        | false => simp [login, hfind, hpw]
        | true =>
            cases hver : u0.isVerified with
            | false => simp [login, hfind, hpw, hver]
            | true => simp [login, hfind, hpw, hver]
  · cases hfind : findUserByEmailForAuth email users with
    | none => simp [login, hfind]
    | some u0 =>
        cases hpw : verifyPassword password u0.passwordHash with
        | false => simp [login, hfind, hpw]
        | true =>
            cases hver : u0.isVerified with
            | false => simp [login, hfind, hpw, hver]
            | true => simp [login, hfind, hpw, hver]

/-- C6: once the caller is resolved and their row found, an unverified caller
fails with the verify-your-email error regardless of title/content and the
post store is unchanged; a verified caller fails on empty (after trim) title
or content, title longer than 200, or content longer than 10000 — otherwise
the trimmed post is persisted, attributed to the caller. -/
theorem c6_create_post (h : Option AuthHeaderVal) (title content : String)
    (now nextPostId uid : Nat) (users : List UserRow) (posts : List PostRow)
    (u : UserRow)
    (hres : getUserIdFromAuthHeader h now = some uid)
    (hfind : findUserById uid users = some u) :
    (u.isVerified = false →
      createPostResolver h title content now nextPostId users posts =
        (Except.error "이메일 인증을 완료해주세요.", posts))
  ∧ (u.isVerified = true →
      createPostResolver h title content now nextPostId users posts =
        (if title == "" || (jsTrim title).length == 0 then
          (Except.error "제목을 입력해주세요.", posts)
        else if content == "" || (jsTrim content).length == 0 then
          (Except.error "내용을 입력해주세요.", posts)
        else if title.length > 200 then
          (Except.error "제목은 200자 이하로 입력해주세요.", posts)
        else if content.length > 10000 then
          (Except.error "내용은 10,000자 이하로 입력해주세요.", posts)
        else
          (Except.ok ⟨nextPostId, jsTrim title, jsTrim content, uid, u.username⟩,
           posts ++ [⟨nextPostId, jsTrim title, jsTrim content, uid⟩])))
  ∧ (u.isVerified = true → (jsTrim title).length ≠ 0 → (jsTrim content).length ≠ 0 →
      title.length ≤ 200 → content.length ≤ 10000 →
      createPostResolver h title content now nextPostId users posts =
        (Except.ok ⟨nextPostId, jsTrim title, jsTrim content, uid, u.username⟩,
         posts ++ [⟨nextPostId, jsTrim title, jsTrim content, uid⟩])) := by
  have htrim0 : jsTrim "" = "" := rfl
  have hchain : u.isVerified = true →
      createPostResolver h title content now nextPostId users posts =
        (if title == "" || (jsTrim title).length == 0 then
          (Except.error "제목을 입력해주세요.", posts)
        else if content == "" || (jsTrim content).length == 0 then
          (Except.error "내용을 입력해주세요.", posts)
        else if title.length > 200 then
          (Except.error "제목은 200자 이하로 입력해주세요.", posts)
        else if content.length > 10000 then
          (Except.error "내용은 10,000자 이하로 입력해주세요.", posts)
        else
          (Except.ok ⟨nextPostId, jsTrim title, jsTrim content, uid, u.username⟩,
           posts ++ [⟨nextPostId, jsTrim title, jsTrim content, uid⟩])) := by
    intro hver
    simp only [createPostResolver, hres, hfind, hver, Bool.not_true, Bool.false_eq_true,
      if_false]
  refine ⟨?_, hchain, ?_⟩
  · intro hver
    simp [createPostResolver, hres, hfind, hver]
  · intro hver htitle hcontent hlt hlc
    have ht1 : ¬ ((title == "" || (jsTrim title).length == 0) = true) := by
      simp only [Bool.or_eq_true, beq_iff_eq, not_or]
      exact ⟨fun hte => htitle (by rw [hte, htrim0]; rfl), htitle⟩
    have hc1 : ¬ ((content == "" || (jsTrim content).length == 0) = true) := by
      simp only [Bool.or_eq_true, beq_iff_eq, not_or]
      exact ⟨fun hte => hcontent (by rw [hte, htrim0]; rfl), hcontent⟩
    rw [hchain hver, if_neg ht1, if_neg hc1, if_neg (Nat.not_lt.mpr hlt),
      if_neg (Nat.not_lt.mpr hlc)]

/-- `String.length` of an explicitly built string. -/
lemma strmk_length (l : List Char) : (String.mk l).length = l.length := rfl

/-- `dropWhile` is the identity on a list none of whose elements satisfy the predicate. -/
lemma dropWhile_eq_self_of (p : Char → Bool) (l : List Char)
    (h : ∀ c ∈ l, p c = false) : l.dropWhile p = l := by
  cases l with
  | nil => rfl
  | cons a t => simp [List.dropWhile_cons, h a (List.mem_cons_self a t)]

/-- JS `trim` is the identity on a string with no whitespace chars. -/
lemma jsTrim_no_ws (s : String) (h : ∀ c ∈ s.data, c.isWhitespace = false) :
    jsTrim s = s := by
  unfold jsTrim
  rw [dropWhile_eq_self_of _ _ h]
  rw [dropWhile_eq_self_of _ _ (by intro c hc; exact h c (List.mem_reverse.mp hc))]
  rw [List.reverse_reverse]

/-- No char of a replicated non-whitespace char is whitespace. -/
lemma replicate_no_ws (n : Nat) (c : Char) (hc : c.isWhitespace = false) :
    ∀ d ∈ List.replicate n c, d.isWhitespace = false := by
  intro d hd
  rw [List.eq_of_mem_replicate hd]
  exact hc

set_option maxRecDepth 10000

/-- Witness for `c6_create_post` at the claim's boundaries: title of length
exactly 200 with content of length exactly 10000 succeeds, title of length
201 fails with the title-bound error. -/
theorem c6_create_post_witness :
    createPostResolver (some (AuthHeaderVal.bearer (generateAccessToken 1 0)))
      (String.mk (List.replicate 200 'a')) (String.mk (List.replicate 10000 'b')) 10 1
      [⟨1, "a@b.c", "alice", "h", true, none, none, none⟩] [] =
      (Except.ok ⟨1, String.mk (List.replicate 200 'a'),
         String.mk (List.replicate 10000 'b'), 1, "alice"⟩,
       [⟨1, String.mk (List.replicate 200 'a'),
         String.mk (List.replicate 10000 'b'), 1⟩])
  ∧ createPostResolver (some (AuthHeaderVal.bearer (generateAccessToken 1 0)))
      (String.mk (List.replicate 201 'a')) (String.mk (List.replicate 10000 'b')) 10 1
      [⟨1, "a@b.c", "alice", "h", true, none, none, none⟩] [] =
      (Except.error "제목은 200자 이하로 입력해주세요.", []) := by
  have hta : jsTrim (String.mk (List.replicate 200 'a')) = String.mk (List.replicate 200 'a') :=
    jsTrim_no_ws _ (replicate_no_ws 200 'a' rfl)
  have htb : jsTrim (String.mk (List.replicate 201 'a')) = String.mk (List.replicate 201 'a') :=
    jsTrim_no_ws _ (replicate_no_ws 201 'a' rfl)
  have htc : jsTrim (String.mk (List.replicate 10000 'b')) = String.mk (List.replicate 10000 'b') :=
    jsTrim_no_ws _ (replicate_no_ws 10000 'b' rfl)
  have hca : (String.mk (List.replicate 200 'a')).length = 200 := by
    rw [strmk_length, List.length_replicate]
  have hcb : (String.mk (List.replicate 201 'a')).length = 201 := by
    rw [strmk_length, List.length_replicate]
  have hcc : (String.mk (List.replicate 10000 'b')).length = 10000 := by
    rw [strmk_length, List.length_replicate]
  have hA := c6_create_post (some (AuthHeaderVal.bearer (generateAccessToken 1 0)))
    (String.mk (List.replicate 200 'a')) (String.mk (List.replicate 10000 'b')) 10 1 1
    [⟨1, "a@b.c", "alice", "h", true, none, none, none⟩] []
    ⟨1, "a@b.c", "alice", "h", true, none, none, none⟩ (by decide) (by decide)
  have hB := c6_create_post (some (AuthHeaderVal.bearer (generateAccessToken 1 0)))
    (String.mk (List.replicate 201 'a')) (String.mk (List.replicate 10000 'b')) 10 1 1
    [⟨1, "a@b.c", "alice", "h", true, none, none, none⟩] []
    ⟨1, "a@b.c", "alice", "h", true, none, none, none⟩ (by decide) (by decide)
  constructor
  · have hok := hA.2.2 rfl (by rw [hta, hca]; exact Nat.succ_ne_zero 199)
      (by rw [htc, hcc]; exact Nat.succ_ne_zero 9999)
      (by rw [hca]) (by rw [hcc])
    rw [hok, hta, htc]
    simp
  · have herr := hB.2.1 rfl
    rw [herr]
    rw [if_neg (by
      simp only [Bool.or_eq_true, beq_iff_eq, not_or]
      constructor
      · intro he
        have := congrArg String.length he
        rw [hcb] at this
        exact absurd this (by decide)
      · rw [htb, hcb]
        exact Nat.succ_ne_zero 200)]
    rw [if_neg (by
      simp only [Bool.or_eq_true, beq_iff_eq, not_or]
      constructor
      · intro he
        have := congrArg String.length he
        rw [hcc] at this
        exact absurd this (by decide)
      · rw [htc, hcc]
        exact Nat.succ_ne_zero 9999)]
    rw [if_pos (by rw [hcb]; exact Nat.lt_succ_self 200)]

/-- C7: the compound-condition delete removes a post exactly when a stored
post has the given id and its stored author id equals the caller id; on
failure it reports false and the post store is unchanged; on success the
matching post is gone while every non-matching post survives. -/
theorem c7_delete_post (postId authorId : Nat) (posts : List PostRow) :
    ((deletePostDb postId authorId posts).2 = true ↔
      ∃ p ∈ posts, p.id = postId ∧ p.authorId = authorId)
  ∧ ((deletePostDb postId authorId posts).2 = false →
      (deletePostDb postId authorId posts).1 = posts)
  ∧ (∀ p ∈ (deletePostDb postId authorId posts).1,
      ¬(p.id = postId ∧ p.authorId = authorId))
  ∧ (∀ p ∈ posts, ¬(p.id = postId ∧ p.authorId = authorId) →
      p ∈ (deletePostDb postId authorId posts).1) := by
  refine ⟨?_, ?_, ?_, ?_⟩
  · simp only [deletePostDb, decide_eq_true_eq, List.countP_pos_iff]
    constructor
    · rintro ⟨p, hp, hc⟩
      simp only [Bool.and_eq_true, beq_iff_eq] at hc
      exact ⟨p, hp, hc⟩
    · rintro ⟨p, hp, h1, h2⟩
      exact ⟨p, hp, by simp [h1, h2]⟩
  · intro hfail
    simp only [deletePostDb, decide_eq_false_iff_not, Nat.not_lt, Nat.le_zero] at hfail
    have hall := List.countP_eq_zero.mp hfail
    simp only [deletePostDb]
    apply List.filter_eq_self.mpr
    intro p hp
    have := hall p hp
    simp only [Bool.and_eq_true, beq_iff_eq, not_and] at this
    cases hc : (p.id == postId && p.authorId == authorId) with
    | false => simp
    | true =>
        simp only [Bool.and_eq_true, beq_iff_eq] at hc
        exact absurd hc.2 (this hc.1)
  · intro p hp
    simp only [deletePostDb, List.mem_filter] at hp
    intro hc
    have := hp.2
    simp [hc.1, hc.2] at this
  · intro p hp hc
    simp only [deletePostDb, List.mem_filter]
    refine ⟨hp, ?_⟩
    cases h1 : (p.id == postId) with
    | false => simp
    | true =>
        cases h2 : (p.authorId == authorId) with
        | false => simp
        | true =>
            exact absurd ⟨beq_iff_eq.mp h1, beq_iff_eq.mp h2⟩ hc

/-- Witness for `c7_delete_post`: a non-author caller fails and leaves the
store unchanged; the author succeeds. -/
theorem c7_delete_post_witness :
    (deletePostDb 1 2 [⟨1, "t", "c", 1⟩]).1 = [⟨1, "t", "c", 1⟩]
  ∧ (deletePostDb 1 1 [⟨1, "t", "c", 1⟩]).2 = true :=
  ⟨(c7_delete_post 1 2 [⟨1, "t", "c", 1⟩]).2.1 (by decide),
   (c7_delete_post 1 1 [⟨1, "t", "c", 1⟩]).1.mpr
     ⟨⟨1, "t", "c", 1⟩, List.mem_singleton.mpr rfl, rfl, rfl⟩⟩

/-- C8: `register` runs the three validators (email format, username rules,
password strength) before any storage call; whenever a validator fails the
result is success = false with that validator's message and the user table is
unchanged (no partial user). -/
theorem c8_register_validation (email username password vtok : String)
    (mail : Bool) (now nextId : Nat) (users : List UserRow) :
    (validateEmail email = false →
      register email username password vtok mail now nextId users =
        (⟨false, "올바른 이메일 주소를 입력해주세요.", false⟩, users))
  ∧ (validateEmail email = true → (validateUsername username).valid = false →
      register email username password vtok mail now nextId users =
        (⟨false, (validateUsername username).message.getD "회원가입에 실패했습니다.", false⟩,
         users))
  ∧ (validateEmail email = true → (validateUsername username).valid = true →
      (validatePassword password).valid = false →
      register email username password vtok mail now nextId users =
        (⟨false, (validatePassword password).message.getD "회원가입에 실패했습니다.", false⟩,
         users))
  ∧ ((validateEmail email = false ∨ (validateUsername username).valid = false ∨
      (validatePassword password).valid = false) →
      (register email username password vtok mail now nextId users).1.success = false ∧
      (register email username password vtok mail now nextId users).2 = users) := by
  have hcase : ∀ he : validateEmail email = false,
      register email username password vtok mail now nextId users =
        (⟨false, "올바른 이메일 주소를 입력해주세요.", false⟩, users) := by
    intro he
    simp [register, he]
  have hcase2 : ∀ _ : validateEmail email = true,
      ∀ _ : (validateUsername username).valid = false,
      register email username password vtok mail now nextId users =
        (⟨false, (validateUsername username).message.getD "회원가입에 실패했습니다.", false⟩,
         users) := by
    intro he hu
    simp [register, he, hu]
  have hcase3 : ∀ _ : validateEmail email = true,
      ∀ _ : (validateUsername username).valid = true,
      ∀ _ : (validatePassword password).valid = false,
      register email username password vtok mail now nextId users =
        (⟨false, (validatePassword password).message.getD "회원가입에 실패했습니다.", false⟩,
         users) := by
    intro he hu hp
    simp [register, he, hu, hp]
  refine ⟨hcase, hcase2, hcase3, ?_⟩
  intro hbad
  cases he : validateEmail email with
  | false =>
      rw [hcase he]
      exact ⟨rfl, rfl⟩
  | true =>
      cases hu : (validateUsername username).valid with
      | false =>
          rw [hcase2 he hu]
          exact ⟨rfl, rfl⟩
      | true =>
          cases hp : (validatePassword password).valid with
          | false =>
              rw [hcase3 he hu hp]
              exact ⟨rfl, rfl⟩
          | true =>
              rcases hbad with h | h | h
              · rw [he] at h; exact absurd h (by decide)
              · rw [hu] at h; exact absurd h (by decide)
              · rw [hp] at h; exact absurd h (by decide)

/-- Witness for `c8_register_validation`: three crafted inputs — a malformed
email, a two-char username, a weak password — each rejected with its
validator's message and no row created. -/
theorem c8_register_validation_witness :
    register "nomail" "alice" "Password1" "v" true 0 1 [] =
      (⟨false, "올바른 이메일 주소를 입력해주세요.", false⟩, [])
  ∧ register "a@b.c" "al" "Password1" "v" true 0 1 [] =
      (⟨false, "사용자명은 3자 이상이어야 합니다.", false⟩, [])
  ∧ register "a@b.c" "alice" "password" "v" true 0 1 [] =
      (⟨false, "비밀번호는 대문자, 소문자, 숫자를 각각 하나 이상 포함해야 합니다.", false⟩, []) :=
  ⟨(c8_register_validation "nomail" "alice" "Password1" "v" true 0 1 []).1 (by decide),
   (c8_register_validation "a@b.c" "al" "Password1" "v" true 0 1 []).2.1 (by decide) (by decide),
   (c8_register_validation "a@b.c" "alice" "password" "v" true 0 1 []).2.2.1 (by decide)
     (by decide) (by decide)⟩

/-- C10: the authorization guard yields null for a missing header, a header
not carrying the bearer scheme, and any token that does not verify as an
access token — and also for a validly signed, unexpired access token whose
embedded subject id is 0, because the extracted id goes through the JS
falsiness coercion; consequently caller identity 0 can never be resolved. -/
theorem c10_zero_subject_unresolvable :
    (∀ now, getUserIdFromAuthHeader none now = none)
  ∧ (∀ s now, getUserIdFromAuthHeader (some (AuthHeaderVal.notBearer s)) now = none)
  ∧ (∀ t now, verifyAccessToken t now = none →
      getUserIdFromAuthHeader (some (AuthHeaderVal.bearer t)) now = none)
  ∧ (∀ t0 now, now < t0 + ACCESS_TOKEN_EXPIRES →
      verifyAccessToken (generateAccessToken 0 t0) now = some 0 ∧
      getUserIdFromAuthHeader
        (some (AuthHeaderVal.bearer (generateAccessToken 0 t0))) now = none)
  ∧ (∀ h now, getUserIdFromAuthHeader h now ≠ some 0) := by
  refine ⟨fun _ => rfl, fun _ _ => rfl, ?_, ?_, ?_⟩
  · intro t now hv
    simp [getUserIdFromAuthHeader, hv]
  · intro t0 now hlt
    have hv : verifyAccessToken (generateAccessToken 0 t0) now = some 0 := by
      simp [verifyAccessToken, generateAccessToken, jwtSign, jwtVerify, Nat.not_le.mpr hlt]
    exact ⟨hv, by simp [getUserIdFromAuthHeader, hv]⟩
  · intro h now
    match h with
    | none => simp [getUserIdFromAuthHeader]
    | some (AuthHeaderVal.notBearer s) => simp [getUserIdFromAuthHeader]
    | some (AuthHeaderVal.bearer t) =>
        cases hv : verifyAccessToken t now with
        | none => simp [getUserIdFromAuthHeader, hv]
        | some uid =>
            cases huid : (uid == 0) with
            | true => simp [getUserIdFromAuthHeader, hv, huid]
            | false =>
                intro hc
                simp only [getUserIdFromAuthHeader, hv, huid, Bool.false_eq_true,
                  if_false, Option.some.injEq] at hc
                rw [hc] at huid
                simp at huid

/-- Witness for `c10_zero_subject_unresolvable` at a concrete clock. -/
theorem c10_zero_subject_witness :
    verifyAccessToken (generateAccessToken 0 0) 10 = some 0
  ∧ getUserIdFromAuthHeader
      (some (AuthHeaderVal.bearer (generateAccessToken 0 0))) 10 = none :=
  (c10_zero_subject_unresolvable).2.2.2.1 0 10 (by decide)

/-- For nibbles, `hexDigit` emits a lowercase hex char, never a hyphen. -/
lemma hexDigit_props : ∀ n, n < 16 →
    ((('0' ≤ hexDigit n ∧ hexDigit n ≤ '9') ∨ ('a' ≤ hexDigit n ∧ hexDigit n ≤ 'f')) ∧
      hexDigit n ≠ '-') := by decide

/-- `hexDigit` is injective on nibbles. -/
lemma hexDigit_inj : ∀ a, a < 16 → ∀ b, b < 16 → hexDigit a = hexDigit b → a = b := by
  decide

/-- Length of the hex rendering: two chars per byte. -/
lemma flatMap_byteToHex_length (l : List Nat) :
    (l.flatMap byteToHex).length = 2 * l.length := by
  induction l with
  | nil => rfl
  | cons b t ih =>
      simp only [List.flatMap_cons, List.length_append, ih, byteToHex]
      simp only [List.length_cons, List.length_nil, List.length]
      omega

/-- Every char of the hex rendering of bytes is a lowercase hex char. -/
lemma flatMap_byteToHex_hex (l : List Nat) (hb : ∀ b ∈ l, b < 256) :
    ∀ c ∈ l.flatMap byteToHex,
      ((('0' ≤ c ∧ c ≤ '9') ∨ ('a' ≤ c ∧ c ≤ 'f')) ∧ c ≠ '-') := by
  induction l with
  | nil => intro c hc; simp at hc
  | cons b t ih =>
      intro c hc
      have hblt := hb b (List.mem_cons_self _ _)
      have hdiv : b / 16 < 16 := by omega
      have hmod : b % 16 < 16 := by omega
      simp only [List.flatMap_cons, byteToHex, List.cons_append, List.nil_append,
        List.mem_cons] at hc
      rcases hc with rfl | rfl | hc
      · exact hexDigit_props _ hdiv
      · exact hexDigit_props _ hmod
      · exact ih (fun x hx => hb x (List.mem_cons_of_mem _ hx)) c hc

/-- The hex rendering is injective on byte lists. -/
lemma flatMap_byteToHex_inj (l1 : List Nat) :
    ∀ l2 : List Nat, (∀ b ∈ l1, b < 256) → (∀ b ∈ l2, b < 256) →
    l1.flatMap byteToHex = l2.flatMap byteToHex → l1 = l2 := by
  induction l1 with
  | nil =>
      intro l2 _ _ he
      cases l2 with
      | nil => rfl
      | cons b t => simp [byteToHex] at he
  | cons a t ih =>
      intro l2 h1 h2 he
      cases l2 with
      | nil => simp [byteToHex] at he
      | cons b t2 =>
          simp only [List.flatMap_cons, byteToHex, List.cons_append, List.nil_append,
            List.cons.injEq] at he
          obtain ⟨hd1, hd2, hrest⟩ := he
          have ha := h1 a (List.mem_cons_self _ _)
          have hbb := h2 b (List.mem_cons_self _ _)
          have heq1 : a / 16 = b / 16 :=
            hexDigit_inj (a / 16) (by omega) (b / 16) (by omega) hd1
          have heq2 : a % 16 = b % 16 :=
            hexDigit_inj (a % 16) (by omega) (b % 16) (by omega) hd2
          have hab : a = b := by omega
          subst hab
          rw [ih t2 (fun x hx => h1 x (List.mem_cons_of_mem _ hx))
            (fun x hx => h2 x (List.mem_cons_of_mem _ hx)) hrest]

/-- The version/variant fixing preserves length. -/
lemma v4SetBits_length (l : List Nat) : ∀ i, (v4SetBits i l).length = l.length := by
  induction l with
  | nil => intro i; rfl
  | cons b t ih =>
      intro i
      simp only [v4SetBits, List.length_cons, ih]

/-- The version/variant fixing preserves the byte bound. -/
lemma v4SetBits_lt (l : List Nat) : ∀ i, (∀ b ∈ l, b < 256) →
    ∀ b ∈ v4SetBits i l, b < 256 := by
  induction l with
  | nil => intro i _ b hb; simp [v4SetBits] at hb
  | cons a t ih =>
      intro i hb b hmem
      simp only [v4SetBits, List.mem_cons] at hmem
      rcases hmem with rfl | hmem
      · have := hb a (List.mem_cons_self _ _)
        have h16 := Nat.mod_lt a (show 0 < 16 by decide)
        have h64 := Nat.mod_lt a (show 0 < 64 by decide)
        by_cases h6 : i = 6
        · subst h6
          rw [if_pos rfl]
          omega
        · by_cases h8 : i = 8
          · subst h8
            rw [if_neg (by decide), if_pos rfl]
            omega
          · rw [if_neg h6, if_neg h8]
            omega
      · exact ih (i + 1) (fun x hx => hb x (List.mem_cons_of_mem _ hx)) b hmem

/-- Filtering the uuid hyphen layout with a hyphen-rejecting predicate is
filtering the raw 32 chars. -/
lemma filter_hyphenate (cs : List Char) (p : Char → Bool) (hp : p '-' = false) :
    (hyphenate cs).filter p = cs.filter p := by
  have hne : ¬ (p '-' = true) := by simp [hp]
  unfold hyphenate
  rw [List.filter_append, List.filter_cons_of_neg hne, List.filter_append,
    List.filter_cons_of_neg hne, List.filter_append, List.filter_cons_of_neg hne,
    List.filter_append, List.filter_cons_of_neg hne]
  rw [← List.filter_append, ← List.filter_append, ← List.filter_append,
    ← List.filter_append]
  congr 1
  have h1 : (cs.drop 16).take 4 ++ cs.drop 20 = cs.drop 16 := by
    rw [show cs.drop 20 = (cs.drop 16).drop 4 from (List.drop_drop 4 16 cs).symm,
      List.take_append_drop]
  have h2 : (cs.drop 12).take 4 ++ cs.drop 16 = cs.drop 12 := by
    rw [show cs.drop 16 = (cs.drop 12).drop 4 from (List.drop_drop 4 12 cs).symm,
      List.take_append_drop]
  have h3 : (cs.drop 8).take 4 ++ cs.drop 12 = cs.drop 8 := by
    rw [show cs.drop 12 = (cs.drop 8).drop 4 from (List.drop_drop 4 8 cs).symm,
      List.take_append_drop]
  rw [h1, h2, h3, List.take_append_drop]

/-- The verification token is exactly the hex rendering of the masked bytes
(the hyphen removal deletes precisely the four inserted hyphens). -/
lemma generateVerificationToken_data (rnds : List Nat) (hb : ∀ b ∈ rnds, b < 256) :
    (generateVerificationToken rnds).data = (v4SetBits 0 rnds).flatMap byteToHex := by
  unfold generateVerificationToken uuidv4
  rw [show (String.mk (hyphenate ((v4SetBits 0 rnds).flatMap byteToHex))).data =
      hyphenate ((v4SetBits 0 rnds).flatMap byteToHex) from rfl]
  rw [filter_hyphenate _ _ rfl]
  apply List.filter_eq_self.mpr
  intro c hc
  have hne := (flatMap_byteToHex_hex _ (v4SetBits_lt rnds 0 hb) c hc).2
  simp [hne]

/-- C9 counterexample: two distinct 16-byte random inputs — 128 distinct bits
of randomness — produce the same verification token, because uuid v4 fixes
the version nibble; the generator therefore carries strictly fewer than 128
bits of randomness. -/
theorem c9_token_entropy_counterexample :
    List.replicate 16 0 ≠ [0, 0, 0, 0, 0, 0, 16, 0, 0, 0, 0, 0, 0, 0, 0, 0]
  ∧ (List.replicate 16 0).length = 16
  ∧ (∀ b ∈ List.replicate 16 0, b < 256)
  ∧ ([0, 0, 0, 0, 0, 0, 16, 0, 0, 0, 0, 0, 0, 0, 0, 0] : List Nat).length = 16
  ∧ (∀ b ∈ ([0, 0, 0, 0, 0, 0, 16, 0, 0, 0, 0, 0, 0, 0, 0, 0] : List Nat), b < 256)
  ∧ generateVerificationToken (List.replicate 16 0) =
      generateVerificationToken [0, 0, 0, 0, 0, 0, 16, 0, 0, 0, 0, 0, 0, 0, 0, 0] := by
  decide

/-- C9 amended: every output of the generator on 16 random bytes is a 32-char
lowercase hex string with no separator (in particular no hyphen), and the
token determines the v4-masked bytes — all 122 random bits survive, so two
tokens coincide only when the masked inputs do (distinctness with
overwhelming probability over the 122 random bits, not 128). -/
theorem c9_token_format (rnds : List Nat) (hlen : rnds.length = 16)
    (hbytes : ∀ b ∈ rnds, b < 256) :
    (generateVerificationToken rnds).data.length = 32
  ∧ (∀ c ∈ (generateVerificationToken rnds).data,
      (('0' ≤ c ∧ c ≤ '9') ∨ ('a' ≤ c ∧ c ≤ 'f')))
  ∧ (∀ c ∈ (generateVerificationToken rnds).data, c ≠ '-')
  ∧ (∀ rnds2, rnds2.length = 16 → (∀ b ∈ rnds2, b < 256) →
      generateVerificationToken rnds = generateVerificationToken rnds2 →
      v4SetBits 0 rnds = v4SetBits 0 rnds2) := by
  refine ⟨?_, ?_, ?_, ?_⟩
  · rw [generateVerificationToken_data rnds hbytes, flatMap_byteToHex_length,
      v4SetBits_length, hlen]
  · intro c hc
    rw [generateVerificationToken_data rnds hbytes] at hc
    exact (flatMap_byteToHex_hex _ (v4SetBits_lt rnds 0 hbytes) c hc).1
  · intro c hc
    rw [generateVerificationToken_data rnds hbytes] at hc
    exact (flatMap_byteToHex_hex _ (v4SetBits_lt rnds 0 hbytes) c hc).2
  · intro rnds2 hlen2 hbytes2 htok
    have hdata := congrArg String.data htok
    rw [generateVerificationToken_data rnds hbytes,
      generateVerificationToken_data rnds2 hbytes2] at hdata
    exact flatMap_byteToHex_inj _ _ (v4SetBits_lt rnds 0 hbytes)
      (v4SetBits_lt rnds2 0 hbytes2) hdata

/-- Witness for `c9_token_format` on the all-zero random input. -/
theorem c9_token_format_witness :
    (generateVerificationToken (List.replicate 16 0)).data.length = 32 :=
  (c9_token_format (List.replicate 16 0) (by decide) (by decide)).1

/-- Witness for `c5_login_errors`: three crafted inputs — unknown email,
wrong password for a verified user, correct password for an unverified user —
hit the three distinct messages. -/
theorem c5_login_errors_witness :
    (login "x@y.z" "Password1" 0
      [⟨1, "a@b.c", "alice", hashPassword "Password1", true, none, none, none⟩,
       ⟨2, "c@d.e", "bob", hashPassword "Secret1x", false, some "t", some 99, none⟩]).1 =
      Except.error "존재하지 않는 이메일입니다."
  ∧ (login "a@b.c" "wrongpass" 0
      [⟨1, "a@b.c", "alice", hashPassword "Password1", true, none, none, none⟩,
       ⟨2, "c@d.e", "bob", hashPassword "Secret1x", false, some "t", some 99, none⟩]).1 =
      Except.error "비밀번호가 올바르지 않습니다."
  ∧ (login "c@d.e" "Secret1x" 0
      [⟨1, "a@b.c", "alice", hashPassword "Password1", true, none, none, none⟩,
       ⟨2, "c@d.e", "bob", hashPassword "Secret1x", false, some "t", some 99, none⟩]).1 =
      Except.error "이메일 인증을 완료해주세요. 인증 이메일을 확인하세요." := by
  refine ⟨?_, ?_, ?_⟩
  · exact (c5_login_errors "x@y.z" "Password1" 0 _).1.mpr (by decide)
  · exact (c5_login_errors "a@b.c" "wrongpass" 0 _).2.1.mpr
      ⟨⟨1, "a@b.c", "alice", hashPassword "Password1", true, none, none, none⟩,
       by decide, by decide⟩
  · exact (c5_login_errors "c@d.e" "Secret1x" 0 _).2.2.1.mpr
      ⟨⟨2, "c@d.e", "bob", hashPassword "Secret1x", false, some "t", some 99, none⟩,
       by decide, by decide, rfl⟩
